import Mathlib

/-!
# Standard node interface (`src/std_node.cpp`)

A shallow embedding of the rosserial standard node: the `MODULE` request /
status / state protocol, the module registry and the periodic status
broadcast.

Modelling conventions.

* `std_msgs::Int8::data` is an `int8_t`; it is represented by an `Int` and every
  store of an `int` into it goes through `toInt8` (two's complement narrowing).
* The transport `nh` is a record of what has been advertised, subscribed,
  published (topic name and payload, in emission order) and logged.
* The four `std::function` members of `MODULE` are kept in a separate
  `Callbacks` table (a structure cannot hold functions over itself). A callback
  is a transformer of the context it runs in: the module it belongs to, the
  transport and the integrator's own state `σ`.
* `millis()` is an input: every read of the clock is a parameter.
-/

namespace StdNode

/-! ## Configuration constants and enumerations -/

/-- Default of the macro NODE_NAME. -/
def NODE_NAME : String := "std_node"

/-- Default of the macro STATUS_FREQ, in milliseconds. -/
def STATUS_FREQ : Nat := 1500

/-- The enumeration MODULE_STATUS. -/
inductive MODULE_STATUS where
  | INITIALIZING_MODULE
  | IDLE
  | IN_PROGRESS
  | COMPLETE
  | INVALID_REPEAT
  | ERROR_REBOOT
  deriving DecidableEq, Repr

/-- Numeric value of a MODULE_STATUS enumerator. -/
def MODULE_STATUS.toInt : MODULE_STATUS → Int
  | .INITIALIZING_MODULE => 0
  | .IDLE => 1
  | .IN_PROGRESS => 2
  | .COMPLETE => 3
  | .INVALID_REPEAT => 4
  | .ERROR_REBOOT => 5

/-- The enumeration REQUEST. -/
inductive REQUEST where
  | INITIALIZING
  | STOP
  | START
  | VERIFY_COMPLETE
  | CALIBRATE
  | REBOOT
  deriving DecidableEq, Repr

/-- Numeric value of a REQUEST enumerator. -/
def REQUEST.toInt : REQUEST → Int
  | .INITIALIZING => 0
  | .STOP => 1
  | .START => 2
  | .VERIFY_COMPLETE => 3
  | .CALIBRATE => 4
  | .REBOOT => 5

/-- Narrowing of an int to int8_t (two's complement wrap-around). -/
def toInt8 (x : Int) : Int := (x + 128) % 256 - 128

/-! ## Transport -/

/-- Observable record of the node handle nh. -/
structure NodeHandle where
  initialized : Bool
  spin_timeout : Nat
  advertised : List String
  subscribed : List String
  published : List (String × Int)
  logged : List String
  deriving DecidableEq, Repr

/-- A node handle on which nothing has happened yet. -/
def NodeHandle.fresh : NodeHandle :=
  { initialized := false, spin_timeout := 0, advertised := [], subscribed := [],
    published := [], logged := [] }

/-- One call of Publisher::publish on the named topic. -/
def NodeHandle.publish (nh : NodeHandle) (topic : String) (data : Int) : NodeHandle :=
  { nh with published := nh.published ++ [(topic, data)] }

/-- The prefix put in front of every log line. -/
def get_node_tag : String := "[" ++ NODE_NAME ++ "] "

/-- Source function loginfo: one informational log line carrying the node tag. -/
def loginfo (msg : String) (nh : NodeHandle) : NodeHandle :=
  { nh with logged := nh.logged ++ [get_node_tag ++ msg] }

/-! ## Module -/

/-- Data members of struct MODULE (the callbacks live in Callbacks). The two
publishers and the subscriber are identified by their topic names. -/
structure MODULE where
  module_name : String
  _state_msg : Int
  _status_msg : Int
  _state_name : String
  _status_name : String
  _request_name : String
  onetime_status : Int
  deriving DecidableEq, Repr

/-- Constructor of MODULE: derives the three topic names; the three Int8
messages start with data 0. -/
def MODULE.new (_module_name : String) : MODULE :=
  { module_name := _module_name
    _state_msg := 0
    _status_msg := 0
    _state_name := _module_name ++ "_state"
    _status_name := _module_name ++ "_status"
    _request_name := _module_name ++ "_request"
    onetime_status := 0 }

/-- What a member function or a callback of a module can read and write: the
module itself, the transport, and the integrator state. -/
structure Ctx (σ : Type) where
  self : MODULE
  nh : NodeHandle
  user : σ

/-- The four std::function members of MODULE. -/
structure Callbacks (σ : Type) where
  start_callback : Ctx σ → Ctx σ
  verify_complete_callback : Ctx σ → Bool × Ctx σ
  idle_callback : Ctx σ → Ctx σ
  calibrate_callback : Ctx σ → Ctx σ

/-- Names of the four callbacks, used to record which ones a request invoked. -/
inductive Callback where
  | start
  | verify_complete
  | idle
  | calibrate
  deriving DecidableEq, Repr

/-- The statement status_pub.publish(&_status_msg). -/
def Ctx.publish_status_msg {σ : Type} (c : Ctx σ) : Ctx σ :=
  { c with nh := c.nh.publish c.self._status_name c.self._status_msg }

/-- The assignment _status_msg.data = v. -/
def Ctx.set_status {σ : Type} (v : Int) (c : Ctx σ) : Ctx σ :=
  { c with self := { c.self with _status_msg := v } }

/-- Member function MODULE::init. -/
def MODULE.init (m : MODULE) (nh : NodeHandle) : NodeHandle :=
  { nh with advertised := nh.advertised ++ [m._state_name, m._status_name]
            subscribed := nh.subscribed ++ [m._request_name] }

/-- Member function MODULE::publish_status. -/
def MODULE.publish_status {σ : Type} (new_status : MODULE_STATUS) (c : Ctx σ) : Ctx σ :=
  let c1 := (c.set_status new_status.toInt).publish_status_msg
  let c2 := if new_status = MODULE_STATUS.COMPLETE then
      (c1.set_status MODULE_STATUS.IDLE.toInt).publish_status_msg
    else c1
  { c2 with nh := loginfo ("Status Published, " ++ c2.self.module_name ++ ", "
      ++ toString new_status.toInt) c2.nh }

/-- Member function MODULE::publish_state. The comparison is made on the int
argument; the store narrows it to int8_t. -/
def MODULE.publish_state {σ : Type} (new_state : Int) (c : Ctx σ) : Ctx σ :=
  if c.self._state_msg ≠ new_state then
    let c1 := { c with self := { c.self with _state_msg := toInt8 new_state } }
    { c1 with nh := c1.nh.publish c1.self._state_name c1.self._state_msg }
  else c

/-- The two statements after the switch of process_request_callback. -/
def MODULE.request_epilogue {σ : Type} (msg : Int) (c : Ctx σ) : Ctx σ :=
  let c1 := c.publish_status_msg
  { c1 with nh := loginfo ("Request Received, " ++ c1.self.module_name ++ ", "
      ++ toString msg) c1.nh }

/-- Member function MODULE::process_request_callback, on the payload msg.data.
Returns the resulting context and the callbacks invoked, in order. -/
def MODULE.process_request_callback {σ : Type} (cb : Callbacks σ) (msg : Int) (c : Ctx σ) :
    Ctx σ × List Callback :=
  if msg = REQUEST.START.toInt then
    let c1 := (c.set_status MODULE_STATUS.IN_PROGRESS.toInt).publish_status_msg
    let c2 := cb.start_callback c1
    (MODULE.request_epilogue msg c2, [Callback.start])
  else if msg = REQUEST.VERIFY_COMPLETE.toInt then
    let r := cb.verify_complete_callback c
    let verify_result := r.1
    let c1 := r.2
    let c2 : Ctx σ := { c1 with self := { c1.self with onetime_status :=
      if verify_result then MODULE_STATUS.COMPLETE.toInt else MODULE_STATUS.IN_PROGRESS.toInt } }
    let c3 : Ctx σ := { c2 with nh := c2.nh.publish c2.self._status_name c2.self.onetime_status }
    (MODULE.request_epilogue msg c3, [Callback.verify_complete])
  else if msg = REQUEST.STOP.toInt then
    let c1 := (c.set_status MODULE_STATUS.IDLE.toInt).publish_status_msg
    let c2 := cb.idle_callback c1
    (MODULE.request_epilogue msg c2, [Callback.idle])
  else if msg = REQUEST.CALIBRATE.toInt then
    let c1 := (c.set_status MODULE_STATUS.IN_PROGRESS.toInt).publish_status_msg
    let c2 := cb.calibrate_callback c1
    (MODULE.request_epilogue msg c2, [Callback.calibrate])
  else (c, [])

/-! ## Registry and periodic broadcast -/

/-- Global variables of the node: the handle nh, the vector modules (the
pointed-to modules, in vector order) and the marker last_status. -/
structure Node where
  nh : NodeHandle
  modules : List MODULE
  last_status : Nat
  deriving DecidableEq, Repr

/-- Source function init_std_node; now is the value read from millis(). -/
def init_std_node (now : Nat) (n : Node) : Node :=
  { n with nh := { n.nh with initialized := true, spin_timeout := 100 }
           last_status := now }

/-- Source function init_module: allocates the module, appends it to the
registry and initialises it. Returns the new globals and the module. -/
def init_module (_module_name : String) (n : Node) : Node × MODULE :=
  let module := MODULE.new _module_name
  ({ n with modules := n.modules ++ [module], nh := module.init n.nh }, module)

/-- Body of the lambda in the bulk publish_status: relay the stored status. -/
def republish (nh : NodeHandle) (module : MODULE) : NodeHandle :=
  nh.publish module._status_name module._status_msg

/-- Source function publish_status (the registry-wide one); now is the value
read from millis() after the loop. -/
def publish_status (now : Nat) (n : Node) : Node :=
  { n with nh := n.modules.foldl republish n.nh, last_status := now }

/-- Elapsed time millis() - last_status in 32-bit unsigned arithmetic. -/
def elapsed (now last : Nat) : Nat := (now + 2 ^ 32 - last % 2 ^ 32) % 2 ^ 32

/-- Source function periodic_status; now is the clock read by the test and
stamp the clock read by publish_status when it runs. -/
def periodic_status (now stamp : Nat) (n : Node) : Node :=
  if elapsed now n.last_status > STATUS_FREQ then publish_status stamp n else n

/-! ## Notions used to state the properties -/

/-- A callback that does not publish: it returns with the module and the
published record of the transport as it found them. -/
def Silent {σ : Type} (f : Ctx σ → Ctx σ) : Prop :=
  ∀ c, (f c).self = c.self ∧ (f c).nh.published = c.nh.published

/-- The same for the verify callback, which also returns a verdict. -/
def SilentVerify {σ : Type} (f : Ctx σ → Bool × Ctx σ) : Prop :=
  ∀ c, (f c).2.self = c.self ∧ (f c).2.nh.published = c.nh.published

/-- Example callbacks that do nothing; verify answers with the given verdict. -/
def idleCallbacks (verdict : Bool) : Callbacks Unit :=
  { start_callback := fun c => c
    verify_complete_callback := fun c => (verdict, c)
    idle_callback := fun c => c
    calibrate_callback := fun c => c }

/-- Example context: a freshly constructed module named arm on a fresh handle. -/
def armCtx : Ctx Unit :=
  { self := MODULE.new "arm", nh := NodeHandle.fresh, user := () }

/-- Requests delivered one after the other to the same module; returns the final
context and all callbacks invoked, in order. -/
def MODULE.process_requests {σ : Type} (cb : Callbacks σ) : List Int → Ctx σ → Ctx σ × List Callback
  | [], c => (c, [])
  | msg :: rest, c =>
    ((MODULE.process_requests cb rest (MODULE.process_request_callback cb msg c).1).1,
      (MODULE.process_request_callback cb msg c).2
        ++ (MODULE.process_requests cb rest (MODULE.process_request_callback cb msg c).1).2)

/-- Example callbacks for a module whose start callback increments a counter. -/
def countingCallbacks : Callbacks Nat :=
  { start_callback := fun c => { c with user := c.user + 1 }
    verify_complete_callback := fun c => (false, c)
    idle_callback := fun c => c
    calibrate_callback := fun c => c }

/-- Example context: module arm with its counter at zero. -/
def armCounterCtx : Ctx Nat :=
  { self := MODULE.new "arm", nh := NodeHandle.fresh, user := 0 }

/-- Example callbacks whose verify callback answers with a flag it then flips. -/
def alternatingCallbacks : Callbacks Bool :=
  { start_callback := fun c => c
    verify_complete_callback := fun c => (c.user, { c with user := !c.user })
    idle_callback := fun c => c
    calibrate_callback := fun c => c }

/-- Example context: module gripper, whose next verify answer is false. -/
def gripperCtx : Ctx Bool :=
  { self := MODULE.new "gripper", nh := NodeHandle.fresh, user := false }

/-- The core operations that write to a module's status topic. -/
inductive StatusOp where
  | process_request (msg : Int)
  | publish_status (s : MODULE_STATUS)
  | heartbeat
  deriving DecidableEq, Repr

/-- Effect of one core operation on a module; a heartbeat is the registry-wide
publish_status as seen by this module. -/
def StatusOp.apply {σ : Type} (cb : Callbacks σ) : StatusOp → Ctx σ → Ctx σ
  | .process_request msg, c => (MODULE.process_request_callback cb msg c).1
  | .publish_status s, c => MODULE.publish_status s c
  | .heartbeat, c => { c with nh := republish c.nh c.self }

/-- A sequence of core operations, applied in order. -/
def StatusOp.run {σ : Type} (cb : Callbacks σ) : List StatusOp → Ctx σ → Ctx σ
  | [], c => c
  | op :: rest, c => StatusOp.run cb rest (op.apply cb c)

/-- All four callbacks of the table are silent. -/
def Callbacks.Silent {σ : Type} (cb : Callbacks σ) : Prop :=
  StdNode.Silent cb.start_callback ∧ SilentVerify cb.verify_complete_callback ∧
  StdNode.Silent cb.idle_callback ∧ StdNode.Silent cb.calibrate_callback

/-- Payloads a context has published beyond what an earlier context had. -/
def emittedSince {σ τ : Type} (before : Ctx σ) (after : Ctx τ) : List Int :=
  (after.nh.published.drop before.nh.published.length).map Prod.snd

/-- Trace check: every COMPLETE (3) in the trace is immediately followed by an
element accepted by p; in particular COMPLETE is not the last element. -/
def completeFollowedBy (p : Int → Bool) : List Int → Bool
  | [] => true
  | [v] => v != 3
  | v :: w :: rest => (v != 3 || p w) && completeFollowedBy p (w :: rest)

/-- Example callbacks that record, in the integrator state, how many messages
the transport had published at the moment they were invoked. -/
def probeCallbacks : Callbacks Nat :=
  { start_callback := fun c => { c with user := c.nh.published.length }
    verify_complete_callback := fun c => (true, { c with user := c.nh.published.length })
    idle_callback := fun c => { c with user := c.nh.published.length }
    calibrate_callback := fun c => { c with user := c.nh.published.length } }

/-- Example context for the probe: module arm, nothing published, record at 7. -/
def armProbeCtx : Ctx Nat :=
  { self := MODULE.new "arm", nh := NodeHandle.fresh, user := 7 }

/-- Example callbacks whose start, idle and calibrate callbacks report the given
status through the module's own publish_status. -/
def reportingCallbacks (s : MODULE_STATUS) : Callbacks Unit :=
  { start_callback := fun c => MODULE.publish_status s c
    verify_complete_callback := fun c => (false, c)
    idle_callback := fun c => MODULE.publish_status s c
    calibrate_callback := fun c => MODULE.publish_status s c }

/-- A member function or callback run on the i-th registered module: it sees
that module, the global handle and the integrator state, and what it leaves is
written back. An index outside the registry changes nothing. -/
def Node.onModule {σ : Type} (i : Nat) (f : Ctx σ → Ctx σ) (n : Node) (u : σ) : Node × σ :=
  match n.modules[i]? with
  | none => (n, u)
  | some m =>
    ({ n with nh := (f { self := m, nh := n.nh, user := u }).nh
              modules := n.modules.set i (f { self := m, nh := n.nh, user := u }).self },
      (f { self := m, nh := n.nh, user := u }).user)

/-- Example registry: modules arm and gripper registered on a fresh handle, in
that order, with the marker at 1000. -/
def exampleNode : Node :=
  { (init_module "gripper"
      (init_module "arm" { nh := NodeHandle.fresh, modules := [], last_status := 0 }).1).1
    with last_status := 1000 }

/-- The three suffixes from which the constructor derives the topic names. -/
def channelSuffixes : List String := ["_state", "_status", "_request"]

/-- The topic names of a module: state, status, request. -/
def MODULE.channels (m : MODULE) : List String :=
  [m._state_name, m._status_name, m._request_name]

/-- All core operations on a module: the status operations and publish_state. -/
inductive CoreOp where
  | status (op : StatusOp)
  | publish_state (new_state : Int)
  deriving DecidableEq, Repr

/-- Effect of one core operation on a module. -/
def CoreOp.apply {σ : Type} (cb : Callbacks σ) : CoreOp → Ctx σ → Ctx σ
  | .status op, c => op.apply cb c
  | .publish_state v, c => MODULE.publish_state v c

/-- A sequence of core operations, applied in order. -/
def CoreOp.run {σ : Type} (cb : Callbacks σ) : List CoreOp → Ctx σ → Ctx σ
  | [], c => c
  | op :: rest, c => CoreOp.run cb rest (op.apply cb c)

/-- A callback that does not leave COMPLETE as the persisted status when it
did not find it there (true of a callback that leaves the status message alone
and of one that only goes through publish_status). -/
def KeepsNotComplete {σ : Type} (f : Ctx σ → Ctx σ) : Prop :=
  ∀ x, x.self._status_msg ≠ MODULE_STATUS.COMPLETE.toInt →
    (f x).self._status_msg ≠ MODULE_STATUS.COMPLETE.toInt

/-- The persisted status after publish_status s: s itself, or IDLE for COMPLETE. -/
def settled (s : MODULE_STATUS) : Int :=
  if s = MODULE_STATUS.COMPLETE then MODULE_STATUS.IDLE.toInt else s.toInt

/-- What publish_status s puts on the status topic: s, and IDLE after COMPLETE. -/
def reported (s : MODULE_STATUS) : List Int :=
  if s = MODULE_STATUS.COMPLETE then
    [ MODULE_STATUS.COMPLETE.toInt, MODULE_STATUS.IDLE.toInt]
  else [s.toInt]

/-- Example callbacks whose start callback writes COMPLETE straight into the
status message (the assignment _status_msg.data = COMPLETE), without going
through publish_status. -/
def overwritingCallbacks : Callbacks Unit :=
  { start_callback := fun c => c.set_status MODULE_STATUS.COMPLETE.toInt
    verify_complete_callback := fun c => (false, c)
    idle_callback := fun c => c
    calibrate_callback := fun c => c }

/-! ## Basic facts about the member functions -/

theorem request_epilogue_self {σ : Type} (msg : Int) (c : Ctx σ) :
    (MODULE.request_epilogue msg c).self = c.self := rfl

theorem request_epilogue_user {σ : Type} (msg : Int) (c : Ctx σ) :
    (MODULE.request_epilogue msg c).user = c.user := rfl

theorem request_epilogue_published {σ : Type} (msg : Int) (c : Ctx σ) :
    (MODULE.request_epilogue msg c).nh.published
      = c.nh.published ++ [(c.self._status_name, c.self._status_msg)] := rfl

theorem process_request_START {σ : Type} (cb : Callbacks σ) (c : Ctx σ) :
    MODULE.process_request_callback cb 2 c
      = (MODULE.request_epilogue 2 (cb.start_callback
          ((c.set_status 2).publish_status_msg)), [Callback.start]) := rfl

theorem process_request_VERIFY {σ : Type} (cb : Callbacks σ) (c : Ctx σ) :
    MODULE.process_request_callback cb 3 c
      = (MODULE.request_epilogue 3
          { self := { (cb.verify_complete_callback c).2.self with
              onetime_status := if (cb.verify_complete_callback c).1 then 3 else 2 }
            nh := (cb.verify_complete_callback c).2.nh.publish
              (cb.verify_complete_callback c).2.self._status_name
              (if (cb.verify_complete_callback c).1 then 3 else 2)
            user := (cb.verify_complete_callback c).2.user }, [Callback.verify_complete]) := rfl

theorem process_request_STOP {σ : Type} (cb : Callbacks σ) (c : Ctx σ) :
    MODULE.process_request_callback cb 1 c
      = (MODULE.request_epilogue 1 (cb.idle_callback
          ((c.set_status 1).publish_status_msg)), [Callback.idle]) := rfl

theorem process_request_CALIBRATE {σ : Type} (cb : Callbacks σ) (c : Ctx σ) :
    MODULE.process_request_callback cb 4 c
      = (MODULE.request_epilogue 4 (cb.calibrate_callback
          ((c.set_status 2).publish_status_msg)), [Callback.calibrate]) := rfl

/-! ## START followed by VERIFY_COMPLETE -/

/-- C1 (as amended): with start and verify callbacks that do not publish and a
verify callback answering true, START followed by VERIFY_COMPLETE appends to the
status topic exactly IN_PROGRESS, IN_PROGRESS, the one-shot COMPLETE and then
the persisted IN_PROGRESS once more (the publish after the switch), and nothing
else to any topic. -/
theorem start_then_verify_emissions {σ : Type} (cb : Callbacks σ) (c : Ctx σ)
    (hs : Silent cb.start_callback) (hv : SilentVerify cb.verify_complete_callback)
    (ht : ∀ x, (cb.verify_complete_callback x).1 = true) :
    (MODULE.process_request_callback cb REQUEST.VERIFY_COMPLETE.toInt
        (MODULE.process_request_callback cb REQUEST.START.toInt c).1).1.nh.published
      = c.nh.published ++
          [(c.self._status_name, MODULE_STATUS.IN_PROGRESS.toInt),
           (c.self._status_name, MODULE_STATUS.IN_PROGRESS.toInt),
           (c.self._status_name, MODULE_STATUS.COMPLETE.toInt),
           (c.self._status_name, MODULE_STATUS.IN_PROGRESS.toInt)] := by
  obtain ⟨h1, h2⟩ := hs ((c.set_status 2).publish_status_msg)
  obtain ⟨h3, h4⟩ := hv (MODULE.request_epilogue 2
    (cb.start_callback ((c.set_status 2).publish_status_msg)))
  have h5 := ht (MODULE.request_epilogue 2
    (cb.start_callback ((c.set_status 2).publish_status_msg)))
  simp only [REQUEST.toInt, MODULE_STATUS.toInt, process_request_START, process_request_VERIFY,
    request_epilogue_published, request_epilogue_self, NodeHandle.publish, h1, h2, h3, h4, h5]
  simp [Ctx.set_status, Ctx.publish_status_msg, NodeHandle.publish]

/-- C1 witness: the amended statement at the module arm with callbacks that do
nothing. -/
theorem start_then_verify_emissions_witness :
    (Silent (idleCallbacks true).start_callback ∧
      SilentVerify (idleCallbacks true).verify_complete_callback ∧
      ∀ x, ((idleCallbacks true).verify_complete_callback x).1 = true) ∧
    (MODULE.process_request_callback (idleCallbacks true) REQUEST.VERIFY_COMPLETE.toInt
        (MODULE.process_request_callback (idleCallbacks true) REQUEST.START.toInt
          armCtx).1).1.nh.published
      = armCtx.nh.published ++
          [(armCtx.self._status_name, MODULE_STATUS.IN_PROGRESS.toInt),
           (armCtx.self._status_name, MODULE_STATUS.IN_PROGRESS.toInt),
           (armCtx.self._status_name, MODULE_STATUS.COMPLETE.toInt),
           (armCtx.self._status_name, MODULE_STATUS.IN_PROGRESS.toInt)] :=
  ⟨⟨fun _ => ⟨rfl, rfl⟩, fun _ => ⟨rfl, rfl⟩, fun _ => rfl⟩,
    start_then_verify_emissions (idleCallbacks true) armCtx
      (fun _ => ⟨rfl, rfl⟩) (fun _ => ⟨rfl, rfl⟩) (fun _ => rfl)⟩

/-- C1 counterexample: on the module arm, with callbacks that do nothing and a
verify callback answering true, START then VERIFY_COMPLETE does not leave exactly
the three emissions IN_PROGRESS, IN_PROGRESS, COMPLETE on the status topic: a
fourth one follows. -/
theorem start_then_verify_not_three :
    Silent (idleCallbacks true).start_callback ∧
    SilentVerify (idleCallbacks true).verify_complete_callback ∧
    (∀ x, ((idleCallbacks true).verify_complete_callback x).1 = true) ∧
    (MODULE.process_request_callback (idleCallbacks true) REQUEST.VERIFY_COMPLETE.toInt
        (MODULE.process_request_callback (idleCallbacks true) REQUEST.START.toInt
          armCtx).1).1.nh.published
      ≠ armCtx.nh.published ++
          [(armCtx.self._status_name, MODULE_STATUS.IN_PROGRESS.toInt),
           (armCtx.self._status_name, MODULE_STATUS.IN_PROGRESS.toInt),
           (armCtx.self._status_name, MODULE_STATUS.COMPLETE.toInt)] :=
  ⟨fun _ => ⟨rfl, rfl⟩, fun _ => ⟨rfl, rfl⟩, fun _ => rfl, by decide⟩

/-! ## VERIFY_COMPLETE is a query -/

/-- C2: when the verify callback leaves the status message alone, a
VERIFY_COMPLETE request leaves the persisted status as it was, whatever the
verdict; and after START then VERIFY_COMPLETE (start callback likewise) the
persisted status is IN_PROGRESS. -/
theorem verify_complete_keeps_status {σ : Type} (cb : Callbacks σ) (c : Ctx σ)
    (hv : ∀ x, (cb.verify_complete_callback x).2.self._status_msg = x.self._status_msg) :
    (MODULE.process_request_callback cb REQUEST.VERIFY_COMPLETE.toInt c).1.self._status_msg
      = c.self._status_msg ∧
    ((∀ x, (cb.start_callback x).self._status_msg = x.self._status_msg) →
      (MODULE.process_request_callback cb REQUEST.VERIFY_COMPLETE.toInt
        (MODULE.process_request_callback cb REQUEST.START.toInt c).1).1.self._status_msg
        = MODULE_STATUS.IN_PROGRESS.toInt) := by
  have key : ∀ x : Ctx σ,
      (MODULE.process_request_callback cb 3 x).1.self._status_msg = x.self._status_msg := by
    intro x
    rw [process_request_VERIFY, request_epilogue_self]
    exact hv x
  refine ⟨key c, fun hs => ?_⟩
  simp only [REQUEST.toInt, MODULE_STATUS.toInt]
  rw [key, process_request_START, request_epilogue_self, hs]
  rfl

/-- C2 witness: the module arm, verify callback answering false. -/
theorem verify_complete_keeps_status_witness :
    (∀ x, ((idleCallbacks false).verify_complete_callback x).2.self._status_msg
      = x.self._status_msg) ∧
    (∀ x, ((idleCallbacks false).start_callback x).self._status_msg = x.self._status_msg) ∧
    (MODULE.process_request_callback (idleCallbacks false) REQUEST.VERIFY_COMPLETE.toInt
        armCtx).1.self._status_msg = armCtx.self._status_msg ∧
    (MODULE.process_request_callback (idleCallbacks false) REQUEST.VERIFY_COMPLETE.toInt
        (MODULE.process_request_callback (idleCallbacks false) REQUEST.START.toInt
          armCtx).1).1.self._status_msg = MODULE_STATUS.IN_PROGRESS.toInt :=
  ⟨fun _ => rfl, fun _ => rfl,
   (verify_complete_keeps_status (idleCallbacks false) armCtx (fun _ => rfl)).1,
   (verify_complete_keeps_status (idleCallbacks false) armCtx (fun _ => rfl)).2 (fun _ => rfl)⟩

/-! ## publish_status -/

/-- C3: publish_status s appends exactly s to the status topic and leaves s as
the persisted status when s is not COMPLETE; for COMPLETE it appends COMPLETE
then IDLE and leaves IDLE as the persisted status. -/
theorem publish_status_emissions {σ : Type} (s : MODULE_STATUS) (c : Ctx σ) :
    (MODULE.publish_status s c).nh.published
      = c.nh.published ++
          (if s = MODULE_STATUS.COMPLETE then
            [(c.self._status_name, MODULE_STATUS.COMPLETE.toInt),
             (c.self._status_name, MODULE_STATUS.IDLE.toInt)]
          else [(c.self._status_name, s.toInt)]) ∧
    (MODULE.publish_status s c).self._status_msg
      = (if s = MODULE_STATUS.COMPLETE then MODULE_STATUS.IDLE.toInt else s.toInt) := by
  cases s <;>
    simp [Ctx.set_status, Ctx.publish_status_msg, NodeHandle.publish, loginfo,
      MODULE.publish_status, MODULE_STATUS.toInt]

/-! ## publish_state called twice -/

/-- C4 (as amended): for v within the int8 range, two consecutive calls
publish_state v emit v exactly once on the state topic when the stored state
differs from v and emit nothing when it already equals v; the second call never
changes anything. -/
theorem publish_state_twice {σ : Type} (v : Int) (c : Ctx σ)
    (hlo : -128 ≤ v) (hhi : v ≤ 127) :
    (MODULE.publish_state v (MODULE.publish_state v c)).nh.published
      = c.nh.published ++ (if c.self._state_msg = v then [] else [(c.self._state_name, v)]) ∧
    MODULE.publish_state v (MODULE.publish_state v c) = MODULE.publish_state v c := by
  have hv : toInt8 v = v := by unfold toInt8; omega
  by_cases h : c.self._state_msg = v
  · simp [ MODULE.publish_state, h]
  · simp [ MODULE.publish_state, h, hv, NodeHandle.publish]

/-- C4 witness: stored state 0, v = 7: one emission in total. -/
theorem publish_state_twice_witness :
    ((-128 : Int) ≤ 7 ∧ (7 : Int) ≤ 127) ∧
    (MODULE.publish_state 7 (MODULE.publish_state 7 armCtx)).nh.published
      = armCtx.nh.published ++
          (if armCtx.self._state_msg = 7 then [] else [(armCtx.self._state_name, 7)]) ∧
    MODULE.publish_state 7 (MODULE.publish_state 7 armCtx) = MODULE.publish_state 7 armCtx :=
  ⟨by decide, publish_state_twice 7 armCtx (by decide) (by decide)⟩

/-- C4 counterexample: on a fresh module (stored state 0) two calls
publish_state 0 emit nothing at all, not exactly once. -/
theorem publish_state_twice_zero_emissions :
    (MODULE.publish_state 0 (MODULE.publish_state 0 armCtx)).nh.published = [] ∧
    (MODULE.publish_state 0 (MODULE.publish_state 0 armCtx)).nh.published.length ≠ 1 := by
  decide

/-! ## Requests outside the handled set -/

/-- C5: a request value other than STOP, START, VERIFY_COMPLETE and CALIBRATE
returns the context untouched (nothing published or logged, status, state and
integrator state unchanged) and invokes no callback. -/
theorem unhandled_request_ignored {σ : Type} (cb : Callbacks σ) (msg : Int) (c : Ctx σ)
    (hstop : msg ≠ REQUEST.STOP.toInt) (hstart : msg ≠ REQUEST.START.toInt)
    (hverify : msg ≠ REQUEST.VERIFY_COMPLETE.toInt) (hcal : msg ≠ REQUEST.CALIBRATE.toInt) :
    MODULE.process_request_callback cb msg c = (c, []) := by
  simp [ MODULE.process_request_callback, hstop, hstart, hverify, hcal]

/-- C5 witness: request value 6 on the module arm. -/
theorem unhandled_request_ignored_witness :
    ((6 : Int) ≠ REQUEST.STOP.toInt ∧ (6 : Int) ≠ REQUEST.START.toInt ∧
      (6 : Int) ≠ REQUEST.VERIFY_COMPLETE.toInt ∧ (6 : Int) ≠ REQUEST.CALIBRATE.toInt) ∧
    MODULE.process_request_callback (idleCallbacks true) 6 armCtx = (armCtx, []) :=
  ⟨by decide, unhandled_request_ignored (idleCallbacks true) 6 armCtx
    (by decide) (by decide) (by decide) (by decide)⟩

/-! ## Heartbeat -/

theorem foldl_republish_published (ms : List MODULE) (nh : NodeHandle) :
    (ms.foldl republish nh).published
      = nh.published ++ ms.map (fun m => (m._status_name, m._status_msg)) := by
  induction ms generalizing nh with
  | nil => simp
  | cons m rest ih => simp [List.foldl_cons, ih, republish, NodeHandle.publish]

/-- C6: the registry-wide publish_status appends to the transport, for a
registry of N modules, exactly N status messages, the i-th carrying the i-th
module's stored status on its status topic, and leaves every module as it was. -/
theorem heartbeat_relays_stored_status (now : Nat) (n : Node) :
    (publish_status now n).nh.published
      = n.nh.published ++ n.modules.map (fun m => (m._status_name, m._status_msg)) ∧
    (publish_status now n).nh.published.length
      = n.nh.published.length + n.modules.length ∧
    (publish_status now n).modules = n.modules := by
  have h := foldl_republish_published n.modules n.nh
  refine ⟨h, ?_, rfl⟩
  show ((n.modules.foldl republish n.nh).published).length = _
  rw [h]; simp

/-! ## Repeated START -/

theorem counting_start_step (cb : Callbacks Nat)
    (h : ∀ c, cb.start_callback c = { c with user := c.user + 1 }) (c : Ctx Nat) :
    (MODULE.process_request_callback cb 2 c).2 = [Callback.start] ∧
    (MODULE.process_request_callback cb 2 c).1.user = c.user + 1 ∧
    (MODULE.process_request_callback cb 2 c).1.self._status_name = c.self._status_name ∧
    (MODULE.process_request_callback cb 2 c).1.nh.published
      = c.nh.published ++ [(c.self._status_name, 2), (c.self._status_name, 2)] := by
  rw [process_request_START, h]
  simp [ MODULE.request_epilogue, Ctx.publish_status_msg, Ctx.set_status, NodeHandle.publish,
    loginfo]

/-- C7: when start_callback only increments a counter, k START requests in a
row invoke it exactly k times (the counter advances by k, no other callback
runs) and append exactly 2k emissions to the status topic, all IN_PROGRESS. -/
theorem start_k_times (cb : Callbacks Nat)
    (h : ∀ c, cb.start_callback c = { c with user := c.user + 1 }) (k : Nat) (c : Ctx Nat) :
    (MODULE.process_requests cb (List.replicate k REQUEST.START.toInt) c).1.user = c.user + k ∧
    (MODULE.process_requests cb (List.replicate k REQUEST.START.toInt) c).2
      = List.replicate k Callback.start ∧
    (MODULE.process_requests cb (List.replicate k REQUEST.START.toInt) c).1.nh.published
      = c.nh.published ++
          List.replicate (2 * k) (c.self._status_name, MODULE_STATUS.IN_PROGRESS.toInt) := by
  simp only [REQUEST.toInt, MODULE_STATUS.toInt]
  induction k generalizing c with
  | zero => simp [ MODULE.process_requests]
  | succ k ih =>
    obtain ⟨h1, h2, h3, h4⟩ := counting_start_step cb h c
    obtain ⟨i1, i2, i3⟩ := ih (MODULE.process_request_callback cb 2 c).1
    rw [List.replicate_succ]
    simp only [ MODULE.process_requests]
    refine ⟨?_, ?_, ?_⟩
    · rw [i1, h2]; omega
    · rw [i2, h1]; rfl
    · rw [i3, h4, h3, show 2 * (k + 1) = (2 * k + 1) + 1 by omega, List.replicate_succ,
        List.replicate_succ]
      simp

/-- C7 witness: module arm, two START requests: the counter reads 2 and the
status topic shows four emissions, all IN_PROGRESS. -/
theorem start_k_times_witness :
    (∀ c, countingCallbacks.start_callback c = { c with user := c.user + 1 }) ∧
    (MODULE.process_requests countingCallbacks
      (List.replicate 2 REQUEST.START.toInt) armCounterCtx).1.user = 0 + 2 ∧
    (MODULE.process_requests countingCallbacks
      (List.replicate 2 REQUEST.START.toInt) armCounterCtx).2 = List.replicate 2 Callback.start ∧
    (MODULE.process_requests countingCallbacks
      (List.replicate 2 REQUEST.START.toInt) armCounterCtx).1.nh.published
      = [] ++ List.replicate (2 * 2) ("arm_status", MODULE_STATUS.IN_PROGRESS.toInt) :=
  ⟨fun _ => rfl, start_k_times countingCallbacks (fun _ => rfl) 2 armCounterCtx⟩

/-! ## VERIFY_COMPLETE reports a one-shot value -/

/-- C8: a VERIFY_COMPLETE request invokes verify_complete_callback once and no
other callback, stores COMPLETE or IN_PROGRESS in the one-shot message according
to the verdict and publishes it on the status topic (the stored status follows
it); with a callback answering false then true, two requests publish the
one-shot values IN_PROGRESS then COMPLETE. -/
theorem verify_complete_one_shot {σ : Type} (cb : Callbacks σ) (c : Ctx σ) :
    ((MODULE.process_request_callback cb REQUEST.VERIFY_COMPLETE.toInt c).2
        = [Callback.verify_complete] ∧
      (MODULE.process_request_callback cb REQUEST.VERIFY_COMPLETE.toInt c).1.user
        = (cb.verify_complete_callback c).2.user ∧
      (MODULE.process_request_callback cb REQUEST.VERIFY_COMPLETE.toInt c).1.self.onetime_status
        = (if (cb.verify_complete_callback c).1 then MODULE_STATUS.COMPLETE.toInt
            else MODULE_STATUS.IN_PROGRESS.toInt) ∧
      (MODULE.process_request_callback cb REQUEST.VERIFY_COMPLETE.toInt c).1.nh.published
        = (cb.verify_complete_callback c).2.nh.published ++
            [((cb.verify_complete_callback c).2.self._status_name,
                if (cb.verify_complete_callback c).1 then MODULE_STATUS.COMPLETE.toInt
                else MODULE_STATUS.IN_PROGRESS.toInt),
             ((cb.verify_complete_callback c).2.self._status_name,
                (cb.verify_complete_callback c).2.self._status_msg)]) ∧
    ((MODULE.process_request_callback alternatingCallbacks REQUEST.VERIFY_COMPLETE.toInt
        gripperCtx).1.self.onetime_status = MODULE_STATUS.IN_PROGRESS.toInt ∧
      (MODULE.process_requests alternatingCallbacks
        [REQUEST.VERIFY_COMPLETE.toInt, REQUEST.VERIFY_COMPLETE.toInt]
        gripperCtx).1.self.onetime_status = MODULE_STATUS.COMPLETE.toInt ∧
      (MODULE.process_requests alternatingCallbacks
        [REQUEST.VERIFY_COMPLETE.toInt, REQUEST.VERIFY_COMPLETE.toInt] gripperCtx).1.nh.published
        = [("gripper_status", MODULE_STATUS.IN_PROGRESS.toInt),
           ("gripper_status", MODULE_STATUS.INITIALIZING_MODULE.toInt),
           ("gripper_status", MODULE_STATUS.COMPLETE.toInt),
           ("gripper_status", MODULE_STATUS.INITIALIZING_MODULE.toInt)] ∧
      (MODULE.process_requests alternatingCallbacks
        [REQUEST.VERIFY_COMPLETE.toInt, REQUEST.VERIFY_COMPLETE.toInt] gripperCtx).2
        = [Callback.verify_complete, Callback.verify_complete]) := by
  refine ⟨?_, by decide⟩
  simp only [REQUEST.toInt, MODULE_STATUS.toInt, process_request_VERIFY]
  simp [ MODULE.request_epilogue, Ctx.publish_status_msg, NodeHandle.publish, loginfo]

/-! ## COMPLETE on the status topic -/

theorem completeFollowedBy_append (p : Int → Bool) :
    ∀ a b : List Int, completeFollowedBy p a = true → completeFollowedBy p b = true →
      completeFollowedBy p (a ++ b) = true
  | [], b, _, hb => by simpa using hb
  | [v], [], ha, _ => by simpa using ha
  | [v], w :: r, ha, hb => by
    simp only [completeFollowedBy, bne_iff_ne, ne_eq] at ha
    simp only [List.singleton_append, completeFollowedBy, Bool.and_eq_true, Bool.or_eq_true,
      bne_iff_ne, ne_eq]
    exact ⟨Or.inl ha, hb⟩
  | v :: w :: rest, b, ha, hb => by
    simp only [completeFollowedBy, Bool.and_eq_true] at ha
    simp only [List.cons_append, completeFollowedBy, Bool.and_eq_true]
    exact ⟨ha.1, completeFollowedBy_append p (w :: rest) b ha.2 hb⟩

theorem silent_branch {σ : Type} (f : Ctx σ → Ctx σ) (hf : Silent f) (msg v : Int) (c : Ctx σ) :
    (MODULE.request_epilogue msg (f ((c.set_status v).publish_status_msg))).self
      = { c.self with _status_msg := v } ∧
    (MODULE.request_epilogue msg (f ((c.set_status v).publish_status_msg))).nh.published
      = c.nh.published ++ [(c.self._status_name, v), (c.self._status_name, v)] := by
  obtain ⟨h1, h2⟩ := hf ((c.set_status v).publish_status_msg)
  rw [request_epilogue_self, request_epilogue_published, h1, h2]
  simp [Ctx.set_status, Ctx.publish_status_msg, NodeHandle.publish]

theorem silent_verify_branch {σ : Type} (cb : Callbacks σ)
    (hv : SilentVerify cb.verify_complete_callback) (c : Ctx σ) :
    (MODULE.process_request_callback cb 3 c).1.self
      = { c.self with onetime_status := if (cb.verify_complete_callback c).1 then 3 else 2 } ∧
    (MODULE.process_request_callback cb 3 c).1.nh.published
      = c.nh.published ++
          [(c.self._status_name, if (cb.verify_complete_callback c).1 then 3 else 2),
           (c.self._status_name, c.self._status_msg)] := by
  obtain ⟨h1, h2⟩ := hv c
  rw [process_request_VERIFY, request_epilogue_self, request_epilogue_published]
  simp [NodeHandle.publish, h1, h2]

theorem statusOp_step {σ : Type} (cb : Callbacks σ) (hq : cb.Silent) (op : StatusOp)
    (c : Ctx σ) (h0 : c.self._status_msg ≠ 3) :
    ∃ seg : List Int,
      (op.apply cb c).nh.published
        = c.nh.published ++ seg.map (fun v => (c.self._status_name, v)) ∧
      (op.apply cb c).self._status_name = c.self._status_name ∧
      (op.apply cb c).self._status_msg ≠ 3 ∧
      completeFollowedBy (fun w => w != 3) seg = true := by
  obtain ⟨hstart, hverify, hidle, hcal⟩ := hq
  cases op with
  | process_request msg =>
    by_cases m2 : msg = 2
    · subst m2
      obtain ⟨e1, e2⟩ := silent_branch cb.start_callback hstart 2 2 c
      refine ⟨[2, 2], ?_, ?_, ?_, by decide⟩ <;>
        simp [StatusOp.apply, process_request_START, e1, e2]
    by_cases m3 : msg = 3
    · subst m3
      obtain ⟨e1, e2⟩ := silent_verify_branch cb hverify c
      refine ⟨[if (cb.verify_complete_callback c).1 then 3 else 2, c.self._status_msg],
        ?_, ?_, ?_, ?_⟩
      · simp [StatusOp.apply, e2]
      · simp [StatusOp.apply, e1]
      · simpa [StatusOp.apply, e1] using h0
      · cases (cb.verify_complete_callback c).1 <;> simp [completeFollowedBy, h0]
    by_cases m1 : msg = 1
    · subst m1
      obtain ⟨e1, e2⟩ := silent_branch cb.idle_callback hidle 1 1 c
      refine ⟨[1, 1], ?_, ?_, ?_, by decide⟩ <;>
        simp [StatusOp.apply, process_request_STOP, e1, e2]
    by_cases m4 : msg = 4
    · subst m4
      obtain ⟨e1, e2⟩ := silent_branch cb.calibrate_callback hcal 4 2 c
      refine ⟨[2, 2], ?_, ?_, ?_, by decide⟩ <;>
        simp [StatusOp.apply, process_request_CALIBRATE, e1, e2]
    · refine ⟨[], ?_, ?_, ?_, by decide⟩ <;>
        simp [StatusOp.apply, MODULE.process_request_callback, REQUEST.toInt, m1, m2, m3, m4, h0]
  | publish_status s =>
    refine ⟨if s = MODULE_STATUS.COMPLETE then [3, 1] else [s.toInt], ?_, ?_, ?_, ?_⟩ <;>
      cases s <;>
      simp [StatusOp.apply, Ctx.set_status, Ctx.publish_status_msg, NodeHandle.publish, loginfo,
        MODULE.publish_status, MODULE_STATUS.toInt, completeFollowedBy]
  | heartbeat =>
    refine ⟨[c.self._status_msg], ?_, ?_, ?_, ?_⟩ <;>
      simp [StatusOp.apply, republish, NodeHandle.publish, completeFollowedBy, h0]

theorem statusOp_run_trace {σ : Type} (cb : Callbacks σ) (hq : cb.Silent) (ops : List StatusOp) :
    ∀ c : Ctx σ, c.self._status_msg ≠ 3 →
      ∃ tr : List Int,
        (StatusOp.run cb ops c).nh.published
          = c.nh.published ++ tr.map (fun v => (c.self._status_name, v)) ∧
        (StatusOp.run cb ops c).self._status_msg ≠ 3 ∧
        completeFollowedBy (fun w => w != 3) tr = true := by
  induction ops with
  | nil => intro c h0; exact ⟨[], by simp [StatusOp.run], by simpa [StatusOp.run] using h0, rfl⟩
  | cons op rest ih =>
    intro c h0
    obtain ⟨seg, s1, s2, s3, s4⟩ := statusOp_step cb hq op c h0
    obtain ⟨tr, t1, t2, t3⟩ := ih (op.apply cb c) s3
    refine ⟨seg ++ tr, ?_, ?_, completeFollowedBy_append _ seg tr s4 t3⟩
    · simp only [StatusOp.run]
      rw [t1, s1, s2]; simp
    · simpa [StatusOp.run] using t2

/-- C9 (as amended): starting from a persisted status other than COMPLETE, with
callbacks that do not publish, whatever sequence of process_request,
publish_status and heartbeat operations is applied, everything emitted goes to
the status topic and every emitted COMPLETE is immediately followed by another
emission that is not COMPLETE: IDLE after publish_status COMPLETE, and the
untouched persisted status after the one-shot COMPLETE of a VERIFY_COMPLETE
request. -/
theorem complete_never_rests {σ : Type} (cb : Callbacks σ) (hq : cb.Silent) (c : Ctx σ)
    (h0 : c.self._status_msg ≠ MODULE_STATUS.COMPLETE.toInt) (ops : List StatusOp) :
    ((StatusOp.run cb ops c).nh.published
        = c.nh.published ++
            (emittedSince c (StatusOp.run cb ops c)).map (fun v => (c.self._status_name, v)) ∧
      completeFollowedBy (fun w => w != MODULE_STATUS.COMPLETE.toInt)
        (emittedSince c (StatusOp.run cb ops c)) = true) ∧
    (∀ x : Ctx σ, emittedSince x (MODULE.publish_status MODULE_STATUS.COMPLETE x)
        = [ MODULE_STATUS.COMPLETE.toInt, MODULE_STATUS.IDLE.toInt]) ∧
    (∀ x : Ctx σ, (cb.verify_complete_callback x).1 = true →
      emittedSince x (MODULE.process_request_callback cb REQUEST.VERIFY_COMPLETE.toInt x).1
        = [ MODULE_STATUS.COMPLETE.toInt, x.self._status_msg]) := by
  simp only [ MODULE_STATUS.toInt, REQUEST.toInt] at h0 ⊢
  refine ⟨?_, ?_, ?_⟩
  · obtain ⟨tr, t1, _, t3⟩ := statusOp_run_trace cb hq ops c h0
    have e : emittedSince c (StatusOp.run cb ops c) = tr := by
      simp [emittedSince, t1, Function.comp_def]
    rw [e]; exact ⟨t1, t3⟩
  · intro x
    simp [emittedSince, Ctx.set_status, Ctx.publish_status_msg, NodeHandle.publish, loginfo,
      MODULE.publish_status, MODULE_STATUS.toInt]
  · intro x hx
    obtain ⟨_, e2⟩ := silent_verify_branch cb hq.2.1 x
    simp [emittedSince, e2, hx]

/-- C9 witness: module arm, callbacks that do nothing, the sequence START,
VERIFY_COMPLETE (answer true), publish_status COMPLETE, heartbeat. -/
theorem complete_never_rests_witness :
    (idleCallbacks true).Silent ∧
    armCtx.self._status_msg ≠ MODULE_STATUS.COMPLETE.toInt ∧
    completeFollowedBy (fun w => w != MODULE_STATUS.COMPLETE.toInt)
      (emittedSince armCtx (StatusOp.run (idleCallbacks true)
        [StatusOp.process_request 2, StatusOp.process_request 3,
          StatusOp.publish_status MODULE_STATUS.COMPLETE, StatusOp.heartbeat] armCtx)) = true :=
  ⟨⟨fun _ => ⟨rfl, rfl⟩, fun _ => ⟨rfl, rfl⟩, fun _ => ⟨rfl, rfl⟩, fun _ => ⟨rfl, rfl⟩⟩,
    by decide,
    (complete_never_rests (idleCallbacks true)
      ⟨fun _ => ⟨rfl, rfl⟩, fun _ => ⟨rfl, rfl⟩, fun _ => ⟨rfl, rfl⟩, fun _ => ⟨rfl, rfl⟩⟩
      armCtx (by decide)
      [StatusOp.process_request 2, StatusOp.process_request 3,
        StatusOp.publish_status MODULE_STATUS.COMPLETE, StatusOp.heartbeat]).1.2⟩

/-- C9 counterexample: on the module arm, START then VERIFY_COMPLETE (answer
true) leaves the status trace IN_PROGRESS, IN_PROGRESS, COMPLETE, IN_PROGRESS:
the COMPLETE is followed by IN_PROGRESS, not by IDLE. -/
theorem complete_followed_by_in_progress :
    emittedSince armCtx (StatusOp.run (idleCallbacks true)
        [StatusOp.process_request REQUEST.START.toInt,
          StatusOp.process_request REQUEST.VERIFY_COMPLETE.toInt] armCtx) = [2, 2, 3, 2] ∧
    completeFollowedBy (fun w => w == MODULE_STATUS.IDLE.toInt)
      (emittedSince armCtx (StatusOp.run (idleCallbacks true)
        [StatusOp.process_request REQUEST.START.toInt,
          StatusOp.process_request REQUEST.VERIFY_COMPLETE.toInt] armCtx)) = false := by
  decide

/-! ## De-duplication of the state topic -/

/-- C10 at the failing input: on a fresh module, publish_state 300 called twice
emits 44 both times; before the second call the stored state is already 44, the
value that call emits. -/
theorem publish_state_300_twice :
    (MODULE.publish_state 300 armCtx).nh.published = [("arm_state", 44)] ∧
    (MODULE.publish_state 300 armCtx).self._state_msg = 44 ∧
    (MODULE.publish_state 300 (MODULE.publish_state 300 armCtx)).nh.published
      = [("arm_state", 44), ("arm_state", 44)] := by
  decide

/-! ## Where the two status publishes of a request sit -/

/-- C11 (as amended): every handled request publishes status exactly twice
itself. For START, STOP and CALIBRATE the first publish is made before the
callback runs (the callback receives a context with exactly one new emission,
the value just set) and the second after it returns (exactly one emission, the
status the callback left). For VERIFY_COMPLETE the callback runs first, on the
incoming context, and both publishes follow it: the one-shot value, then the
persisted status. -/
theorem handled_request_publishes_twice {σ : Type} (cb : Callbacks σ) (c : Ctx σ) :
    (emittedSince c ((c.set_status MODULE_STATUS.IN_PROGRESS.toInt).publish_status_msg)
        = [ MODULE_STATUS.IN_PROGRESS.toInt] ∧
      (MODULE.process_request_callback cb REQUEST.START.toInt c).1.user
        = (cb.start_callback
            ((c.set_status MODULE_STATUS.IN_PROGRESS.toInt).publish_status_msg)).user ∧
      emittedSince
          (cb.start_callback ((c.set_status MODULE_STATUS.IN_PROGRESS.toInt).publish_status_msg))
          (MODULE.process_request_callback cb REQUEST.START.toInt c).1
        = [(cb.start_callback
            ((c.set_status MODULE_STATUS.IN_PROGRESS.toInt).publish_status_msg)).self._status_msg]) ∧
    (emittedSince c ((c.set_status MODULE_STATUS.IDLE.toInt).publish_status_msg)
        = [ MODULE_STATUS.IDLE.toInt] ∧
      (MODULE.process_request_callback cb REQUEST.STOP.toInt c).1.user
        = (cb.idle_callback
            ((c.set_status MODULE_STATUS.IDLE.toInt).publish_status_msg)).user ∧
      emittedSince
          (cb.idle_callback ((c.set_status MODULE_STATUS.IDLE.toInt).publish_status_msg))
          (MODULE.process_request_callback cb REQUEST.STOP.toInt c).1
        = [(cb.idle_callback
            ((c.set_status MODULE_STATUS.IDLE.toInt).publish_status_msg)).self._status_msg]) ∧
    ((MODULE.process_request_callback cb REQUEST.CALIBRATE.toInt c).1.user
        = (cb.calibrate_callback
            ((c.set_status MODULE_STATUS.IN_PROGRESS.toInt).publish_status_msg)).user ∧
      emittedSince
          (cb.calibrate_callback
            ((c.set_status MODULE_STATUS.IN_PROGRESS.toInt).publish_status_msg))
          (MODULE.process_request_callback cb REQUEST.CALIBRATE.toInt c).1
        = [(cb.calibrate_callback
            ((c.set_status MODULE_STATUS.IN_PROGRESS.toInt).publish_status_msg)).self._status_msg]) ∧
    ((MODULE.process_request_callback cb REQUEST.VERIFY_COMPLETE.toInt c).1.user
        = (cb.verify_complete_callback c).2.user ∧
      emittedSince (cb.verify_complete_callback c).2
          (MODULE.process_request_callback cb REQUEST.VERIFY_COMPLETE.toInt c).1
        = [if (cb.verify_complete_callback c).1 then MODULE_STATUS.COMPLETE.toInt
            else MODULE_STATUS.IN_PROGRESS.toInt,
           (cb.verify_complete_callback c).2.self._status_msg]) := by
  simp only [REQUEST.toInt, MODULE_STATUS.toInt, process_request_START, process_request_STOP,
    process_request_CALIBRATE, process_request_VERIFY]
  simp [emittedSince, request_epilogue_published, request_epilogue_user, Ctx.set_status,
    Ctx.publish_status_msg, NodeHandle.publish]

/-- C11 counterexample: with callbacks that record how many messages had been
published when they were invoked, on a module that has published nothing, START
records 1 but VERIFY_COMPLETE records 0: its callback ran before any publish,
and the two emissions (COMPLETE, then the stored status 0) both came after. -/
theorem verify_callback_runs_before_publish :
    (MODULE.process_request_callback probeCallbacks REQUEST.START.toInt armProbeCtx).1.user = 1 ∧
    (MODULE.process_request_callback probeCallbacks REQUEST.VERIFY_COMPLETE.toInt
      armProbeCtx).1.user = 0 ∧
    (MODULE.process_request_callback probeCallbacks REQUEST.VERIFY_COMPLETE.toInt armProbeCtx).2
      = [Callback.verify_complete] ∧
    emittedSince armProbeCtx
      (MODULE.process_request_callback probeCallbacks REQUEST.VERIFY_COMPLETE.toInt
        armProbeCtx).1 = [3, 0] := by
  decide

/-! ## The three transitions -/

/-- C12: with callbacks that do not publish, STOP sets the persisted status to
IDLE, emits IDLE, runs idle_callback once (and nothing else) on that context and
emits IDLE again; CALIBRATE does the same with IN_PROGRESS and
calibrate_callback, START with IN_PROGRESS and start_callback. -/
theorem transition_requests {σ : Type} (cb : Callbacks σ) (hq : cb.Silent) (c : Ctx σ) :
    ((MODULE.process_request_callback cb REQUEST.STOP.toInt c).1.self
        = { c.self with _status_msg := MODULE_STATUS.IDLE.toInt } ∧
      (MODULE.process_request_callback cb REQUEST.STOP.toInt c).1.nh.published
        = c.nh.published ++ [(c.self._status_name, MODULE_STATUS.IDLE.toInt),
            (c.self._status_name, MODULE_STATUS.IDLE.toInt)] ∧
      (MODULE.process_request_callback cb REQUEST.STOP.toInt c).2 = [Callback.idle] ∧
      (MODULE.process_request_callback cb REQUEST.STOP.toInt c).1.user
        = (cb.idle_callback ((c.set_status MODULE_STATUS.IDLE.toInt).publish_status_msg)).user) ∧
    ((MODULE.process_request_callback cb REQUEST.CALIBRATE.toInt c).1.self
        = { c.self with _status_msg := MODULE_STATUS.IN_PROGRESS.toInt } ∧
      (MODULE.process_request_callback cb REQUEST.CALIBRATE.toInt c).1.nh.published
        = c.nh.published ++ [(c.self._status_name, MODULE_STATUS.IN_PROGRESS.toInt),
            (c.self._status_name, MODULE_STATUS.IN_PROGRESS.toInt)] ∧
      (MODULE.process_request_callback cb REQUEST.CALIBRATE.toInt c).2 = [Callback.calibrate] ∧
      (MODULE.process_request_callback cb REQUEST.CALIBRATE.toInt c).1.user
        = (cb.calibrate_callback
            ((c.set_status MODULE_STATUS.IN_PROGRESS.toInt).publish_status_msg)).user) ∧
    ((MODULE.process_request_callback cb REQUEST.START.toInt c).1.self
        = { c.self with _status_msg := MODULE_STATUS.IN_PROGRESS.toInt } ∧
      (MODULE.process_request_callback cb REQUEST.START.toInt c).1.nh.published
        = c.nh.published ++ [(c.self._status_name, MODULE_STATUS.IN_PROGRESS.toInt),
            (c.self._status_name, MODULE_STATUS.IN_PROGRESS.toInt)] ∧
      (MODULE.process_request_callback cb REQUEST.START.toInt c).2 = [Callback.start] ∧
      (MODULE.process_request_callback cb REQUEST.START.toInt c).1.user
        = (cb.start_callback
            ((c.set_status MODULE_STATUS.IN_PROGRESS.toInt).publish_status_msg)).user) := by
  obtain ⟨hstart, _, hidle, hcal⟩ := hq
  obtain ⟨a1, a2⟩ := silent_branch cb.idle_callback hidle 1 1 c
  obtain ⟨b1, b2⟩ := silent_branch cb.calibrate_callback hcal 4 2 c
  obtain ⟨d1, d2⟩ := silent_branch cb.start_callback hstart 2 2 c
  simp only [REQUEST.toInt, MODULE_STATUS.toInt]
  exact ⟨⟨a1, a2, rfl, rfl⟩, ⟨b1, b2, rfl, rfl⟩, ⟨d1, d2, rfl, rfl⟩⟩

/-- C12 witness: module arm with callbacks that do nothing, from the initial
status INITIALIZING. -/
theorem transition_requests_witness :
    (idleCallbacks true).Silent ∧
    (MODULE.process_request_callback (idleCallbacks true) REQUEST.STOP.toInt armCtx).1.nh.published
      = armCtx.nh.published ++ [(armCtx.self._status_name, MODULE_STATUS.IDLE.toInt),
          (armCtx.self._status_name, MODULE_STATUS.IDLE.toInt)] :=
  ⟨⟨fun _ => ⟨rfl, rfl⟩, fun _ => ⟨rfl, rfl⟩, fun _ => ⟨rfl, rfl⟩, fun _ => ⟨rfl, rfl⟩⟩,
    (transition_requests (idleCallbacks true)
      ⟨fun _ => ⟨rfl, rfl⟩, fun _ => ⟨rfl, rfl⟩, fun _ => ⟨rfl, rfl⟩, fun _ => ⟨rfl, rfl⟩⟩
      armCtx).1.2.1⟩

/-! ## Periodic broadcast -/

theorem two_pow_32 : (2 : Nat) ^ 32 = 4294967296 := by norm_num

theorem elapsed_no_wrap (now last : Nat) (h : last ≤ now) (hn : now < 2 ^ 32) :
    elapsed now last = now - last := by
  unfold elapsed
  rw [two_pow_32] at *
  omega

theorem elapsed_modular (last d : Nat) (hl : last < 2 ^ 32) (hd : d < 2 ^ 32) :
    elapsed ((last + d) % 2 ^ 32) last = d := by
  unfold elapsed
  rw [two_pow_32] at *
  omega

theorem elapsed_self (t : Nat) : elapsed t t = 0 := by
  unfold elapsed
  rw [two_pow_32]
  omega

/-- C13: with the default threshold 1500, periodic_status performs the
registry-wide publish_status when the elapsed time since last_status (the
difference now - last_status when the clock has not wrapped) is strictly above
the threshold and does nothing at all otherwise; when it fires the N stored
statuses are emitted and last_status becomes the clock value read then, so that
a check repeated at that same time does not fire. -/
theorem periodic_status_threshold (now stamp again : Nat) (n : Node) :
    STATUS_FREQ = 1500 ∧
    (n.last_status ≤ now → now < 2 ^ 32 → elapsed now n.last_status = now - n.last_status) ∧
    (STATUS_FREQ < elapsed now n.last_status →
      periodic_status now stamp n = publish_status stamp n ∧
      (periodic_status now stamp n).last_status = stamp ∧
      (periodic_status now stamp n).nh.published
        = n.nh.published ++ n.modules.map (fun m => (m._status_name, m._status_msg)) ∧
      periodic_status stamp again (periodic_status now stamp n) = periodic_status now stamp n) ∧
    (elapsed now n.last_status ≤ STATUS_FREQ → periodic_status now stamp n = n) := by
  refine ⟨rfl, elapsed_no_wrap now n.last_status, ?_, ?_⟩
  · intro h
    have e : periodic_status now stamp n = publish_status stamp n := by
      simp [periodic_status, h]
    refine ⟨e, by rw [e]; rfl, by rw [e]; exact foldl_republish_published n.modules n.nh, ?_⟩
    rw [e]
    have z : elapsed stamp (publish_status stamp n).last_status = 0 := elapsed_self stamp
    simp [periodic_status, z]
  · intro h
    simp [periodic_status, Nat.not_lt.mpr h]

/-- C13 witness: the registry of arm and gripper with the marker at 1000: at
clock 2501 the broadcast fires, at clock 2500 (elapsed exactly 1500) it does
not. -/
theorem periodic_status_threshold_witness :
    (STATUS_FREQ < elapsed 2501 exampleNode.last_status ∧
      periodic_status 2501 2501 exampleNode = publish_status 2501 exampleNode) ∧
    (elapsed 2500 exampleNode.last_status ≤ STATUS_FREQ ∧
      periodic_status 2500 2500 exampleNode = exampleNode) :=
  ⟨⟨by decide, ((periodic_status_threshold 2501 2501 2501 exampleNode).2.2.1 (by decide)).1⟩,
    ⟨by decide, (periodic_status_threshold 2500 2500 2500 exampleNode).2.2.2 (by decide)⟩⟩

/-- C17: the timer is right across wrap-around of the 32-bit clock: with the
marker at last_status and a true elapsed duration d below 2^32, the clock reads
(last_status + d) mod 2^32, the computed elapsed time is d, and periodic_status
performs the broadcast when d exceeds 1500 and does nothing otherwise. -/
theorem periodic_status_wraparound (d stamp : Nat) (n : Node)
    (hl : n.last_status < 2 ^ 32) (hd : d < 2 ^ 32) :
    elapsed ((n.last_status + d) % 2 ^ 32) n.last_status = d ∧
    (1500 < d →
      periodic_status ((n.last_status + d) % 2 ^ 32) stamp n = publish_status stamp n) ∧
    (d ≤ 1500 → periodic_status ((n.last_status + d) % 2 ^ 32) stamp n = n) := by
  have e := elapsed_modular n.last_status d hl hd
  refine ⟨e, ?_, ?_⟩
  · intro h
    unfold periodic_status
    rw [e, if_pos (show d > STATUS_FREQ from h)]
  · intro h
    unfold periodic_status
    rw [e, if_neg (show ¬ d > STATUS_FREQ from Nat.not_lt.mpr h)]

/-- C17 witness: marker 4294967000, 2000 ms later the clock has wrapped to 1704,
below the marker, and the broadcast fires. -/
theorem periodic_status_wraparound_witness :
    ((4294967000 : Nat) < 2 ^ 32 ∧ (2000 : Nat) < 2 ^ 32 ∧ (1500 : Nat) < 2000) ∧
    (4294967000 + 2000) % 2 ^ 32 = 1704 ∧
    periodic_status ((4294967000 + 2000) % 2 ^ 32) 1704
        { exampleNode with last_status := 4294967000 }
      = publish_status 1704 { exampleNode with last_status := 4294967000 } :=
  ⟨by decide, by decide,
    (periodic_status_wraparound 2000 1704 { exampleNode with last_status := 4294967000 }
      (by decide) (by decide)).2.1 (by decide)⟩

/-! ## Registry -/

theorem map_set_same {α β : Type} (g : α → β) (a b : α) (h : g b = g a) :
    ∀ (l : List α) (i : Nat), l[i]? = some a → (l.set i b).map g = l.map g
  | [], _, hi => by simp at hi
  | x :: rest, 0, hi => by
    simp only [List.getElem?_cons_zero, Option.some.injEq] at hi
    simp [hi, h]
  | x :: rest, i + 1, hi => by
    simp only [List.getElem?_cons_succ] at hi
    simp [map_set_same g a b h rest i hi]

theorem onModule_registry {σ : Type} (i : Nat) (f : Ctx σ → Ctx σ) (n : Node) (u : σ) :
    (Node.onModule i f n u).1.modules.length = n.modules.length ∧
    (∀ j, j ≠ i → (Node.onModule i f n u).1.modules[j]? = n.modules[j]?) ∧
    ((∀ x, (f x).self.module_name = x.self.module_name) →
      (Node.onModule i f n u).1.modules.map MODULE.module_name
        = n.modules.map MODULE.module_name) := by
  unfold Node.onModule
  cases hm : n.modules[i]? with
  | none => simp
  | some m =>
    refine ⟨by simp, ?_, ?_⟩
    · intro j hj
      simp [List.getElem?_set_ne (Ne.symm hj)]
    · intro hf
      exact map_set_same MODULE.module_name m _ (hf _) n.modules i hm

theorem publish_status_name {σ : Type} (s : MODULE_STATUS) (x : Ctx σ) :
    (MODULE.publish_status s x).self.module_name = x.self.module_name := by
  cases s <;> rfl

theorem publish_state_name {σ : Type} (v : Int) (x : Ctx σ) :
    (MODULE.publish_state v x).self.module_name = x.self.module_name := by
  unfold MODULE.publish_state
  split <;> rfl

theorem process_request_name {σ : Type} (cb : Callbacks σ) (hq : cb.Silent) (msg : Int)
    (x : Ctx σ) :
    (MODULE.process_request_callback cb msg x).1.self.module_name = x.self.module_name := by
  obtain ⟨hstart, hverify, hidle, hcal⟩ := hq
  unfold MODULE.process_request_callback
  split
  · rw [request_epilogue_self, (hstart _).1]; rfl
  split
  · rw [request_epilogue_self]; simp [(hverify x).1]
  split
  · rw [request_epilogue_self, (hidle _).1]; rfl
  split
  · rw [request_epilogue_self, (hcal _).1]; rfl
  · rfl

/-- C14: init_module turns the registry r into r followed by the new module,
whatever its name (one entry more, earlier entries in place); the registry-wide
publish_status, periodic_status and init_std_node leave the registry as it is;
process_request, publish_status and publish_state run on the i-th module keep
the number of entries, leave every other entry untouched and keep the sequence
of module names (for process_request: with callbacks that leave the module
alone). -/
theorem registry_append_only {σ : Type} (name : String) (n : Node) (now stamp i : Nat)
    (cb : Callbacks σ) (msg : Int) (s : MODULE_STATUS) (v : Int) (u : σ) :
    ((init_module name n).1.modules = n.modules ++ [(init_module name n).2] ∧
      (init_module name n).2 = MODULE.new name ∧
      (init_module name n).1.modules.length = n.modules.length + 1 ∧
      (∀ j, j < n.modules.length → (init_module name n).1.modules[j]? = n.modules[j]?)) ∧
    ((publish_status now n).modules = n.modules ∧
      (periodic_status now stamp n).modules = n.modules ∧
      (init_std_node now n).modules = n.modules) ∧
    ((Node.onModule i (fun x => (MODULE.process_request_callback cb msg x).1) n u).1.modules.length
        = n.modules.length ∧
      (∀ j, j ≠ i →
        (Node.onModule i (fun x => (MODULE.process_request_callback cb msg x).1) n u).1.modules[j]?
          = n.modules[j]?) ∧
      (cb.Silent →
        (Node.onModule i (fun x => (MODULE.process_request_callback cb msg x).1)
            n u).1.modules.map MODULE.module_name
          = n.modules.map MODULE.module_name)) ∧
    ((Node.onModule i (MODULE.publish_status s) n u).1.modules.length = n.modules.length ∧
      (∀ j, j ≠ i →
        (Node.onModule i (MODULE.publish_status s) n u).1.modules[j]? = n.modules[j]?) ∧
      (Node.onModule i (MODULE.publish_status s) n u).1.modules.map MODULE.module_name
        = n.modules.map MODULE.module_name) ∧
    ((Node.onModule i (MODULE.publish_state v) n u).1.modules.length = n.modules.length ∧
      (∀ j, j ≠ i →
        (Node.onModule i (MODULE.publish_state v) n u).1.modules[j]? = n.modules[j]?) ∧
      (Node.onModule i (MODULE.publish_state v) n u).1.modules.map MODULE.module_name
        = n.modules.map MODULE.module_name) := by
  refine ⟨⟨rfl, rfl, by simp [init_module], ?_⟩, ⟨rfl, ?_, rfl⟩, ?_, ?_, ?_⟩
  · intro j hj
    simp [init_module, List.getElem?_append_left hj]
  · unfold periodic_status
    split <;> rfl
  · obtain ⟨h1, h2, h3⟩ :=
      onModule_registry i (fun x => (MODULE.process_request_callback cb msg x).1) n u
    exact ⟨h1, h2, fun hq => h3 (process_request_name cb hq msg)⟩
  · obtain ⟨h1, h2, h3⟩ := onModule_registry i (MODULE.publish_status s) n u
    exact ⟨h1, h2, h3 (publish_status_name s)⟩
  · obtain ⟨h1, h2, h3⟩ := onModule_registry i (MODULE.publish_state v) n u
    exact ⟨h1, h2, h3 (publish_state_name v)⟩

/-- C14 witness: registering a second module named arm after arm and gripper
keeps both in place, and a START on module 0 leaves gripper and the sequence of
names as they were. -/
theorem registry_append_only_witness :
    (1 < exampleNode.modules.length ∧
      (init_module "arm" exampleNode).1.modules[1]? = exampleNode.modules[1]?) ∧
    ((1 : Nat) ≠ 0 ∧
      (Node.onModule 0 (fun x => (MODULE.process_request_callback (idleCallbacks true) 2 x).1)
          exampleNode ()).1.modules[1]? = exampleNode.modules[1]?) ∧
    ((idleCallbacks true).Silent ∧
      (Node.onModule 0 (fun x => (MODULE.process_request_callback (idleCallbacks true) 2 x).1)
          exampleNode ()).1.modules.map MODULE.module_name
        = exampleNode.modules.map MODULE.module_name) :=
  ⟨⟨by decide,
      (registry_append_only "arm" exampleNode 0 0 0 (idleCallbacks true) 2
        MODULE_STATUS.IDLE 0 ()).1.2.2.2 1 (by decide)⟩,
    ⟨by decide,
      (registry_append_only "arm" exampleNode 0 0 0 (idleCallbacks true) 2
        MODULE_STATUS.IDLE 0 ()).2.2.1.2.1 1 (by decide)⟩,
    ⟨⟨fun _ => ⟨rfl, rfl⟩, fun _ => ⟨rfl, rfl⟩, fun _ => ⟨rfl, rfl⟩, fun _ => ⟨rfl, rfl⟩⟩,
      (registry_append_only "arm" exampleNode 0 0 0 (idleCallbacks true) 2
        MODULE_STATUS.IDLE 0 ()).2.2.1.2.2
        ⟨fun _ => ⟨rfl, rfl⟩, fun _ => ⟨rfl, rfl⟩, fun _ => ⟨rfl, rfl⟩, fun _ => ⟨rfl, rfl⟩⟩⟩⟩

/-! ## Statuses the core never sets -/

theorem publish_status_settles {σ : Type} (s : MODULE_STATUS) (x : Ctx σ) :
    (MODULE.publish_status s x).self._status_msg = settled s ∧
    (MODULE.publish_status s x).self._status_name = x.self._status_name ∧
    (MODULE.publish_status s x).nh.published.getLast?
      = some (x.self._status_name, settled s) := by
  cases s <;>
    simp [settled, Ctx.set_status, Ctx.publish_status_msg, NodeHandle.publish, loginfo,
      MODULE.publish_status, MODULE_STATUS.toInt]

theorem settled_ne_complete (s : MODULE_STATUS) : settled s ≠ 3 := by
  cases s <;> decide

theorem coreOp_step_not_complete {σ : Type} (cb : Callbacks σ)
    (hs : KeepsNotComplete cb.start_callback)
    (hv : KeepsNotComplete (fun x => (cb.verify_complete_callback x).2))
    (hi : KeepsNotComplete cb.idle_callback)
    (hc : KeepsNotComplete cb.calibrate_callback)
    (op : CoreOp) (c : Ctx σ) (h0 : c.self._status_msg ≠ 3) :
    (op.apply cb c).self._status_msg ≠ 3 := by
  cases op with
  | status sop =>
    cases sop with
    | process_request msg =>
      simp only [CoreOp.apply, StatusOp.apply]
      unfold MODULE.process_request_callback
      split
      · rw [request_epilogue_self]
        exact hs _ (by simp [Ctx.set_status, Ctx.publish_status_msg, MODULE_STATUS.toInt])
      split
      · rw [request_epilogue_self]
        exact hv c h0
      split
      · rw [request_epilogue_self]
        exact hi _ (by simp [Ctx.set_status, Ctx.publish_status_msg, MODULE_STATUS.toInt])
      split
      · rw [request_epilogue_self]
        exact hc _ (by simp [Ctx.set_status, Ctx.publish_status_msg, MODULE_STATUS.toInt])
      · exact h0
    | publish_status s =>
      simp only [CoreOp.apply, StatusOp.apply]
      rw [(publish_status_settles s c).1]
      exact settled_ne_complete s
    | heartbeat => exact h0
  | publish_state v =>
    simp only [CoreOp.apply]
    unfold MODULE.publish_state
    split
    · exact h0
    · exact h0

/-- C16 (as amended): starting from a persisted status other than COMPLETE,
with callbacks that do not themselves leave COMPLETE in the status message (they
leave it alone or go through publish_status), after any sequence
of core operations (publish_status with any status, process_request with any
payload and any verify result, publish_state, heartbeat) the persisted status
is not COMPLETE, and a heartbeat made then emits exactly that status, so not
COMPLETE. -/
theorem complete_is_not_resting {σ : Type} (cb : Callbacks σ)
    (hs : KeepsNotComplete cb.start_callback)
    (hv : KeepsNotComplete (fun x => (cb.verify_complete_callback x).2))
    (hi : KeepsNotComplete cb.idle_callback)
    (hc : KeepsNotComplete cb.calibrate_callback)
    (c : Ctx σ) (h0 : c.self._status_msg ≠ MODULE_STATUS.COMPLETE.toInt) (ops : List CoreOp) :
    (CoreOp.run cb ops c).self._status_msg ≠ MODULE_STATUS.COMPLETE.toInt ∧
    emittedSince (CoreOp.run cb ops c) (StatusOp.heartbeat.apply cb (CoreOp.run cb ops c))
      = [(CoreOp.run cb ops c).self._status_msg] ∧
    ∀ v ∈ emittedSince (CoreOp.run cb ops c)
        (StatusOp.heartbeat.apply cb (CoreOp.run cb ops c)),
      v ≠ MODULE_STATUS.COMPLETE.toInt := by
  have key : (CoreOp.run cb ops c).self._status_msg ≠ 3 := by
    induction ops generalizing c with
    | nil => simpa [CoreOp.run] using h0
    | cons op rest ih =>
      simp only [CoreOp.run]
      exact ih (op.apply cb c) (coreOp_step_not_complete cb hs hv hi hc op c h0)
  have hb : emittedSince (CoreOp.run cb ops c)
      (StatusOp.heartbeat.apply cb (CoreOp.run cb ops c))
      = [(CoreOp.run cb ops c).self._status_msg] := by
    simp [emittedSince, StatusOp.apply, republish, NodeHandle.publish]
  refine ⟨key, hb, ?_⟩
  rw [hb]
  intro v hv
  simp only [List.mem_singleton] at hv
  rw [hv]
  exact key

/-- C16 witness: module arm whose callbacks report COMPLETE through
publish_status; after publish_status COMPLETE, START, publish_state 9,
VERIFY_COMPLETE and a heartbeat the persisted status is not COMPLETE. -/
theorem complete_is_not_resting_witness :
    (KeepsNotComplete (reportingCallbacks MODULE_STATUS.COMPLETE).start_callback ∧
      armCtx.self._status_msg ≠ MODULE_STATUS.COMPLETE.toInt) ∧
    (CoreOp.run (reportingCallbacks MODULE_STATUS.COMPLETE)
        [CoreOp.status (StatusOp.publish_status MODULE_STATUS.COMPLETE),
          CoreOp.status (StatusOp.process_request 2), CoreOp.publish_state 9,
          CoreOp.status (StatusOp.process_request 3), CoreOp.status StatusOp.heartbeat]
        armCtx).self._status_msg ≠ MODULE_STATUS.COMPLETE.toInt :=
  ⟨⟨fun x _ => (publish_status_settles MODULE_STATUS.COMPLETE x).1.trans_ne (by decide),
      by decide⟩,
    (complete_is_not_resting (reportingCallbacks MODULE_STATUS.COMPLETE)
      (fun x _ => (publish_status_settles MODULE_STATUS.COMPLETE x).1.trans_ne (by decide))
      (fun _ h => h)
      (fun x _ => (publish_status_settles MODULE_STATUS.COMPLETE x).1.trans_ne (by decide))
      (fun x _ => (publish_status_settles MODULE_STATUS.COMPLETE x).1.trans_ne (by decide))
      armCtx (by decide)
      [CoreOp.status (StatusOp.publish_status MODULE_STATUS.COMPLETE),
        CoreOp.status (StatusOp.process_request 2), CoreOp.publish_state 9,
        CoreOp.status (StatusOp.process_request 3), CoreOp.status StatusOp.heartbeat]).1⟩

/-- C16 counterexample: on the module arm (persisted status INITIALIZING), with
a start callback that assigns COMPLETE to the status message directly, a START
request leaves COMPLETE as the persisted status (line 135 relays it), and the
next heartbeat emits COMPLETE. -/
theorem complete_left_by_callback :
    armCtx.self._status_msg ≠ MODULE_STATUS.COMPLETE.toInt ∧
    (CoreOp.run overwritingCallbacks
        [CoreOp.status (StatusOp.process_request REQUEST.START.toInt)]
        armCtx).self._status_msg = MODULE_STATUS.COMPLETE.toInt ∧
    emittedSince
        (CoreOp.run overwritingCallbacks
          [CoreOp.status (StatusOp.process_request REQUEST.START.toInt)] armCtx)
        (StatusOp.heartbeat.apply overwritingCallbacks
          (CoreOp.run overwritingCallbacks
            [CoreOp.status (StatusOp.process_request REQUEST.START.toInt)] armCtx))
      = [ MODULE_STATUS.COMPLETE.toInt] := by
  decide

/-! ## Topic names -/

theorem append_suffix_injective (a b s t : String) (hs : s ∈ channelSuffixes)
    (ht : t ∈ channelSuffixes) (h : a ++ s = b ++ t) : a = b ∧ s = t := by
  have hl := congrArg (fun x => x.data.getLast?) h
  have hd := congrArg String.data h
  simp only [channelSuffixes, List.mem_cons, List.mem_singleton, List.not_mem_nil,
    or_false] at hs ht
  rcases hs with rfl | rfl | rfl <;> rcases ht with rfl | rfl | rfl <;>
    first
    | (simp only [String.data_append, List.append_cancel_right_eq] at hd
       exact ⟨String.ext hd, rfl⟩)
    | (simp [String.data_append] at hl)

/-- C18: the constructor names the three topics module_name followed by _state,
_status and _request, and the derivation is injective: a name with a suffix
equals another name with a suffix only when names and suffixes are the same.
So the three topics of a module are pairwise distinct, and two modules have a
topic name in common exactly when they have the same name. -/
theorem channel_names_collision_free (a b : String) :
    ((MODULE.new a)._state_name = a ++ "_state" ∧
      (MODULE.new a)._status_name = a ++ "_status" ∧
      (MODULE.new a)._request_name = a ++ "_request" ∧
      (MODULE.new a).channels = channelSuffixes.map (fun s => a ++ s)) ∧
    (∀ s t, s ∈ channelSuffixes → t ∈ channelSuffixes → a ++ s = b ++ t → a = b ∧ s = t) ∧
    (MODULE.new a).channels.Nodup ∧
    ((∃ x, x ∈ (MODULE.new a).channels ∧ x ∈ (MODULE.new b).channels) ↔ a = b) := by
  have inj := append_suffix_injective
  have chan : ∀ n : String, (MODULE.new n).channels = channelSuffixes.map (fun s => n ++ s) :=
    fun _ => rfl
  refine ⟨⟨rfl, rfl, rfl, rfl⟩, fun s t hs ht h => inj a b s t hs ht h, ?_, ?_⟩
  · rw [chan]
    refine List.Nodup.map_on ?_ (by decide)
    intro s hs t ht h
    exact (inj a a s t hs ht h).2
  · constructor
    · rintro ⟨x, hx, hy⟩
      rw [chan, List.mem_map] at hx hy
      obtain ⟨s, hs, rfl⟩ := hx
      obtain ⟨t, ht, e⟩ := hy
      exact ((inj b a t s ht hs e).1).symm
    · rintro rfl
      exact ⟨a ++ "_state", by simp [chan, channelSuffixes], by simp [chan, channelSuffixes]⟩

/-- C18 witness: for the module arm, the state topic name decomposes in one way
only, and two modules named arm have a topic name in common. -/
theorem channel_names_collision_free_witness :
    ("_state" ∈ channelSuffixes ∧ "arm" ++ "_state" = "arm" ++ "_state") ∧
    ("arm" = "arm" ∧ "_state" = "_state") ∧
    (∃ x, x ∈ (MODULE.new "arm").channels ∧ x ∈ (MODULE.new "arm").channels) :=
  ⟨⟨by decide, rfl⟩,
    (channel_names_collision_free "arm" "arm").2.1 "_state" "_state" (by decide) (by decide) rfl,
    (channel_names_collision_free "arm" "arm").2.2.2.mpr rfl⟩

/-! ## A callback that publishes its own status -/

theorem publish_status_published {σ : Type} (s : MODULE_STATUS) (x : Ctx σ) :
    (MODULE.publish_status s x).nh.published
      = x.nh.published ++ (reported s).map (fun v => (x.self._status_name, v)) := by
  cases s <;>
    simp [reported, Ctx.set_status, Ctx.publish_status_msg, NodeHandle.publish, loginfo,
      MODULE.publish_status, MODULE_STATUS.toInt]

theorem relay_after_callback {σ : Type} (f pre : Ctx σ → Ctx σ) (s : MODULE_STATUS)
    (h : ∀ x, f x = MODULE.publish_status s (pre x)) (msg : Int) (x : Ctx σ) :
    (MODULE.request_epilogue msg (f x)).self._status_msg = settled s ∧
    (MODULE.request_epilogue msg (f x)).nh.published
      = (f x).nh.published ++ [((f x).self._status_name, settled s)] ∧
    emittedSince (f x) (MODULE.request_epilogue msg (f x)) = [settled s] := by
  have h1 : (f x).self._status_msg = settled s := by
    rw [h]; exact (publish_status_settles s (pre x)).1
  refine ⟨by rw [request_epilogue_self, h1], by rw [request_epilogue_published, h1], ?_⟩
  simp [emittedSince, request_epilogue_published, h1]

theorem relay_trace {σ : Type} (f pre : Ctx σ → Ctx σ) (s : MODULE_STATUS)
    (h : ∀ x, f x = MODULE.publish_status s (pre x)) (hp : Silent pre) (msg v : Int)
    (c : Ctx σ) :
    emittedSince c (MODULE.request_epilogue msg (f ((c.set_status v).publish_status_msg)))
      = v :: (reported s ++ [settled s]) := by
  obtain ⟨p1, p2⟩ := hp ((c.set_status v).publish_status_msg)
  obtain ⟨r1, r2, _⟩ := relay_after_callback f pre s h msg ((c.set_status v).publish_status_msg)
  have n1 : (f ((c.set_status v).publish_status_msg)).self._status_name
      = c.self._status_name := by
    rw [h, (publish_status_settles s _).2.1, p1]; rfl
  have q : (f ((c.set_status v).publish_status_msg)).nh.published
      = c.nh.published ++ ((c.self._status_name, v) ::
          (reported s).map (fun w => (c.self._status_name, w))) := by
    rw [h, publish_status_published, p1, p2]
    simp [Ctx.set_status, Ctx.publish_status_msg, NodeHandle.publish]
  unfold emittedSince
  rw [r2, q, n1]
  simp [Function.comp_def]

/-- C19: when the callback of a START, STOP or CALIBRATE request calls the
module's publish_status s (after any work of its own), the request publishes
once more after the callback has returned, and that last emission carries what
the callback left: s when s is not COMPLETE and IDLE when s is COMPLETE, which
is also the persisted status after the request, not the value set before the
callback. When the callback publishes nothing else, the emissions of the request
are the value set before the callback, what publish_status s emits, and the
relayed value. -/
theorem callback_status_is_relayed {σ : Type} (cb : Callbacks σ) (s : MODULE_STATUS)
    (pre : Ctx σ → Ctx σ) (c : Ctx σ) :
    ((∀ x, cb.start_callback x = MODULE.publish_status s (pre x)) →
      (MODULE.process_request_callback cb REQUEST.START.toInt c).1.self._status_msg
        = settled s ∧
      (MODULE.process_request_callback cb REQUEST.START.toInt c).1.nh.published
        = (cb.start_callback
            ((c.set_status MODULE_STATUS.IN_PROGRESS.toInt).publish_status_msg)).nh.published
          ++ [((cb.start_callback ((c.set_status
                MODULE_STATUS.IN_PROGRESS.toInt).publish_status_msg)).self._status_name,
              settled s)] ∧
      (Silent pre →
        emittedSince c (MODULE.process_request_callback cb REQUEST.START.toInt c).1
          = MODULE_STATUS.IN_PROGRESS.toInt :: (reported s ++ [settled s]))) ∧
    ((∀ x, cb.idle_callback x = MODULE.publish_status s (pre x)) →
      (MODULE.process_request_callback cb REQUEST.STOP.toInt c).1.self._status_msg
        = settled s ∧
      (MODULE.process_request_callback cb REQUEST.STOP.toInt c).1.nh.published
        = (cb.idle_callback
            ((c.set_status MODULE_STATUS.IDLE.toInt).publish_status_msg)).nh.published
          ++ [((cb.idle_callback ((c.set_status
                MODULE_STATUS.IDLE.toInt).publish_status_msg)).self._status_name,
              settled s)] ∧
      (Silent pre →
        emittedSince c (MODULE.process_request_callback cb REQUEST.STOP.toInt c).1
          = MODULE_STATUS.IDLE.toInt :: (reported s ++ [settled s]))) ∧
    ((∀ x, cb.calibrate_callback x = MODULE.publish_status s (pre x)) →
      (MODULE.process_request_callback cb REQUEST.CALIBRATE.toInt c).1.self._status_msg
        = settled s ∧
      (MODULE.process_request_callback cb REQUEST.CALIBRATE.toInt c).1.nh.published
        = (cb.calibrate_callback
            ((c.set_status MODULE_STATUS.IN_PROGRESS.toInt).publish_status_msg)).nh.published
          ++ [((cb.calibrate_callback ((c.set_status
                MODULE_STATUS.IN_PROGRESS.toInt).publish_status_msg)).self._status_name,
              settled s)] ∧
      (Silent pre →
        emittedSince c (MODULE.process_request_callback cb REQUEST.CALIBRATE.toInt c).1
          = MODULE_STATUS.IN_PROGRESS.toInt :: (reported s ++ [settled s]))) ∧
    (settled s = (if s = MODULE_STATUS.COMPLETE then MODULE_STATUS.IDLE.toInt else s.toInt) ∧
      reported s = (if s = MODULE_STATUS.COMPLETE then
          [ MODULE_STATUS.COMPLETE.toInt, MODULE_STATUS.IDLE.toInt]
        else [s.toInt])) := by
  simp only [REQUEST.toInt, MODULE_STATUS.toInt]
  refine ⟨fun h => ?_, fun h => ?_, fun h => ?_, rfl, rfl⟩
  · obtain ⟨h1, h2, _⟩ := relay_after_callback cb.start_callback pre s h 2
      ((c.set_status 2).publish_status_msg)
    exact ⟨h1, h2, fun hp => relay_trace cb.start_callback pre s h hp 2 2 c⟩
  · obtain ⟨h1, h2, _⟩ := relay_after_callback cb.idle_callback pre s h 1
      ((c.set_status 1).publish_status_msg)
    exact ⟨h1, h2, fun hp => relay_trace cb.idle_callback pre s h hp 1 1 c⟩
  · obtain ⟨h1, h2, _⟩ := relay_after_callback cb.calibrate_callback pre s h 4
      ((c.set_status 2).publish_status_msg)
    exact ⟨h1, h2, fun hp => relay_trace cb.calibrate_callback pre s h hp 4 2 c⟩

/-- C19 witness: module arm whose callbacks report ERROR_REBOOT: a START emits
IN_PROGRESS, then ERROR_REBOOT from the callback, then ERROR_REBOOT again from
the publish after the callback, and ERROR_REBOOT stays the persisted status;
with callbacks reporting COMPLETE, a STOP emits IDLE, COMPLETE, IDLE, IDLE. -/
theorem callback_status_is_relayed_witness :
    ((∀ x, (reportingCallbacks MODULE_STATUS.ERROR_REBOOT).start_callback x
        = MODULE.publish_status MODULE_STATUS.ERROR_REBOOT x) ∧
      Silent (fun x : Ctx Unit => x)) ∧
    ((MODULE.process_request_callback (reportingCallbacks MODULE_STATUS.ERROR_REBOOT)
        REQUEST.START.toInt armCtx).1.self._status_msg = settled MODULE_STATUS.ERROR_REBOOT ∧
      settled MODULE_STATUS.ERROR_REBOOT = 5 ∧
      emittedSince armCtx (MODULE.process_request_callback
          (reportingCallbacks MODULE_STATUS.ERROR_REBOOT) REQUEST.START.toInt armCtx).1
        = MODULE_STATUS.IN_PROGRESS.toInt ::
            (reported MODULE_STATUS.ERROR_REBOOT ++ [settled MODULE_STATUS.ERROR_REBOOT]) ∧
      MODULE_STATUS.IN_PROGRESS.toInt ::
          (reported MODULE_STATUS.ERROR_REBOOT ++ [settled MODULE_STATUS.ERROR_REBOOT])
        = [2, 5, 5]) ∧
    ((∀ x, (reportingCallbacks MODULE_STATUS.COMPLETE).idle_callback x
        = MODULE.publish_status MODULE_STATUS.COMPLETE x) ∧
      emittedSince armCtx (MODULE.process_request_callback
          (reportingCallbacks MODULE_STATUS.COMPLETE) REQUEST.STOP.toInt armCtx).1
        = MODULE_STATUS.IDLE.toInt ::
            (reported MODULE_STATUS.COMPLETE ++ [settled MODULE_STATUS.COMPLETE]) ∧
      MODULE_STATUS.IDLE.toInt ::
          (reported MODULE_STATUS.COMPLETE ++ [settled MODULE_STATUS.COMPLETE])
        = [1, 3, 1, 1]) :=
  ⟨⟨fun _ => rfl, fun _ => ⟨rfl, rfl⟩⟩,
    ⟨((callback_status_is_relayed (reportingCallbacks MODULE_STATUS.ERROR_REBOOT)
        MODULE_STATUS.ERROR_REBOOT (fun x => x) armCtx).1 (fun _ => rfl)).1,
      by decide,
      ((callback_status_is_relayed (reportingCallbacks MODULE_STATUS.ERROR_REBOOT)
        MODULE_STATUS.ERROR_REBOOT (fun x => x) armCtx).1 (fun _ => rfl)).2.2
        (fun _ => ⟨rfl, rfl⟩),
      by decide⟩,
    ⟨fun _ => rfl,
      ((callback_status_is_relayed (reportingCallbacks MODULE_STATUS.COMPLETE)
        MODULE_STATUS.COMPLETE (fun x => x) armCtx).2.1 (fun _ => rfl)).2.2
        (fun _ => ⟨rfl, rfl⟩),
      by decide⟩⟩

end StdNode
